import Mathlib

/-!
Verification of the scraper orchestration core of the Axlrate backend:
the data normalizer (`format_scraped_data`, `normalize_price` in
`scrapers/common/data_formatter.py`), the rate limiter
(`scrapers/common/rate_limiter.py`), the bounded-wait / safe-find
utilities (`scrapers/common/selenium_utils.py`), the OTA whitelist
(`scrapers/common/otas.py`), and the per-OTA `scrape_rates` entry points
(`scrapers/booking|expedia|agoda|trip/scraper.py`).

Modelling conventions: Python floats produced by `float(str)` are
modelled at the exact decimal level (a `PyFloat` is a finite rational,
an infinity, or a nan), abstracting from binary rounding; wall-clock
instants and durations are rationals; the effect
`datetime.now().isoformat()` is passed in as an explicit `now` string;
`time.time()` readings are passed in explicitly as trace data.
-/

/-- The value of a Python `float` produced by `float(str)`: a finite value
(modelled exactly as a rational), an infinity, or a nan. -/
inductive PyFloat where
  | finite (q : ℚ)
  | inf
  | negInf
  | nan
deriving DecidableEq, Repr

/-- The syntactic reading of a Python `float(str)` literal before
valuation: a finite decimal with sign flag, mantissa and decimal scale
(denoting `(-1)^neg * mant / 10 ^ scale`), an infinity, or a nan. -/
inductive PyLit where
  | finite (neg : Bool) (mant : Nat) (scale : Nat)
  | inf
  | negInf
  | nan
deriving DecidableEq, Repr

/-- Valuation of a literal reading as the Python float value it denotes. -/
def PyLit.toPyFloat : PyLit → PyFloat
  | .finite neg m k => .finite (if neg then -((m : ℚ) / 10 ^ k) else (m : ℚ) / 10 ^ k)
  | .inf => .inf
  | .negInf => .negInf
  | .nan => .nan

/-- ASCII whitespace stripped by Python `str.strip()` / `float(str)`:
space, tab, newline, carriage return, vertical tab, form feed.
(The unicode whitespace Python also strips does not occur in any input
considered here.) -/
def pyIsSpace (c : Char) : Bool :=
  c = ' ' || c = '\t' || c = '\n' || c = '\r' || c = '\x0b' || c = '\x0c'

/-- Strip leading and trailing Python whitespace from a character list,
modelling `str.strip()`. -/
def pyStripList (cs : List Char) : List Char :=
  ((cs.dropWhile pyIsSpace).reverse.dropWhile pyIsSpace).reverse

/-- Scan a Python `digitpart` (`digit (["_"] digit)*`, CPython float
grammar): starting from accumulated value `acc` over `n` digits already
read, consume as many further digits as possible, allowing a single
underscore between two digits, and return the value, the number of
digits read, and the unconsumed remainder. An underscore that is not
strictly between two digits stops the scan and is left unconsumed. -/
def digitsAux (acc n : Nat) : List Char → Nat × Nat × List Char
  | [] => (acc, n, [])
  | c :: cs =>
    if c.isDigit then
      digitsAux (10 * acc + (c.toNat - 48)) (n + 1) cs
    else if c = '_' && n != 0 then
      match cs with
      | d :: cs' =>
        if d.isDigit then digitsAux (10 * acc + (d.toNat - 48)) (n + 1) cs'
        else (acc, n, c :: cs)
      | [] => (acc, n, [c])
    else (acc, n, c :: cs)

/-- Parse the optional exponent suffix of a CPython float literal
(`("e"|"E") ["+"|"-"] digitpart`) and apply it to a mantissa/scale pair;
the whole remainder must be consumed, otherwise the literal is
rejected. -/
def parseExponentN (mant scale : Nat) : List Char → Option (Nat × Nat)
  | [] => some (mant, scale)
  | c :: cs =>
    if c = 'e' || c = 'E' then
      let (eneg, cs1) :=
        match cs with
        | '+' :: r => (false, r)
        | '-' :: r => (true, r)
        | r => (false, r)
      let (ev, ne, rest) := digitsAux 0 0 cs1
      if ne = 0 || rest != [] then none
      else if eneg then some (mant, scale + ev) else some (mant * 10 ^ ev, scale)
    else none

/-- Parse an unsigned CPython float literal body
(`digitpart ["." [digitpart]] [exponent]` or `"." digitpart [exponent]`)
into a mantissa/scale pair, rejecting a bare `"."` and trailing
garbage. -/
def parseNumberN (cs : List Char) : Option (Nat × Nat) :=
  let (iv, ni, rest) := digitsAux 0 0 cs
  match rest with
  | '.' :: rest2 =>
    let (fv, nf, rest3) := digitsAux 0 0 rest2
    if ni = 0 && nf = 0 then none
    else parseExponentN (iv * 10 ^ nf + fv) nf rest3
  | _ =>
    if ni = 0 then none else parseExponentN iv 0 rest

/-- Syntactic model of CPython `float(str)` on ASCII input: strip
whitespace, read an optional sign, then either a case-insensitive
`inf` / `infinity` / `nan` or a float literal; `none` models the
`ValueError` raised on any other input. -/
def pyFloatCore (cs : List Char) : Option PyLit :=
  let stripped := pyStripList cs
  let (neg, cs1) :=
    match stripped with
    | '+' :: r => (false, r)
    | '-' :: r => (true, r)
    | r => (false, r)
  let low := cs1.map Char.toLower
  if low = [ 'i', 'n', 'f' ] || low = [ 'i', 'n', 'f', 'i', 'n', 'i', 't', 'y' ] then
    some (if neg then PyLit.negInf else PyLit.inf)
  else if low = [ 'n', 'a', 'n' ] then
    some PyLit.nan
  else
    match parseNumberN cs1 with
    | some (m, k) => some (PyLit.finite neg m k)
    | none => none

/-- CPython `float(str)` on ASCII input, as a value: the literal reading
under its valuation. -/
def pyFloat (cs : List Char) : Option PyFloat :=
  (pyFloatCore cs).map PyLit.toPyFloat

/-- Delete every occurrence of character `c`, modelling Python
`str.replace(c, "")`. -/
def removeChar (c : Char) (cs : List Char) : List Char :=
  cs.filter (fun x => x != c)

/-- The cleaning step of `normalize_price`:
`price_str.replace("$", "").replace(",", "").strip()`. -/
def cleanPrice (price_str : String) : List Char :=
  pyStripList (removeChar ',' (removeChar '$' price_str.toList))

/-- Literal-level reading of `normalize_price` from
`scrapers/common/data_formatter.py`: empty input is falsy and yields
`None`; otherwise `$` and `,` are removed, the result is stripped, and
`float(...)` is attempted, with `ValueError` caught and turned into
`None`. -/
def normalize_price_core (price_str : String) : Option PyLit :=
  if price_str = "" then none
  else pyFloatCore (cleanPrice price_str)

/-- `normalize_price` from `scrapers/common/data_formatter.py`, as a
value: the literal-level reading under the valuation of literals. -/
def normalize_price (price_str : String) : Option PyFloat :=
  (normalize_price_core price_str).map PyLit.toPyFloat

/-- An adapter-produced raw rate entry, pre-normalization: the core only
looks at its `price` string. -/
structure RawRateEntry where
  price : String
deriving DecidableEq, Repr

/-- A normalized rate entry: the parsed amount (`none` when price
parsing failed) together with the raw price label. -/
structure RateEntry where
  amount : Option PyFloat
  raw_label : String
deriving DecidableEq, Repr

/-- An opaque raw payload attached for audit purposes; modelled as a
string-keyed dictionary of strings. -/
abbrev RawPayload : Type := List (String × String)

/-- The dictionary returned by `format_scraped_data` in
`scrapers/common/data_formatter.py`, with its seven fixed keys; `rates`
and `raw_data` are generic because the source passes them through
untouched. -/
structure ScrapedRecord (ρ : Type) (δ : Type) where
  ota_name : String
  hotel_name : String
  check_in_date : String
  check_out_date : String
  scraped_at : String
  rates : List ρ
  raw_data : Option δ
deriving DecidableEq, Repr

/-- `format_scraped_data` from `scrapers/common/data_formatter.py`:
builds the standard record from its arguments; the source's
`datetime.now().isoformat()` is modelled by the explicit `now`
argument. The source contains no validation and no failure path. -/
def format_scraped_data {ρ δ : Type} (now : String) (ota_name : String)
    (hotel_name : String) (check_in : String) (check_out : String)
    (rates : List ρ) (raw_data : Option δ) : ScrapedRecord ρ δ :=
  { ota_name := ota_name
    hotel_name := hotel_name
    check_in_date := check_in
    check_out_date := check_out
    scraped_at := now
    rates := rates
    raw_data := raw_data }

/-- Modelled from the spec: the contents of `WHITELIST_OTAS`, loaded by
`scrapers/common/otas.py` from `shared/otas.json`, a file that is not
part of the sources here; the spec names the OTA variants Booking,
Expedia, Agoda and Trip. -/
def WHITELIST_OTAS : List String := [ "booking", "expedia", "agoda", "trip" ]

/-- Modelled from the spec: the adapter-side assembly of rate entries,
which is absent from the sources because every adapter is an
unimplemented placeholder; per the spec each raw entry's price is
parsed with `normalize_price`, a parse failure becomes a `null` amount
rather than a dropped entry, and entry order is preserved. -/
def buildRates (entries : List RawRateEntry) : List RateEntry :=
  entries.map (fun e => { amount := normalize_price e.price, raw_label := e.price })

/-- The normalization pipeline on raw entries: adapter-side rate
assembly (`buildRates`) followed by `format_scraped_data`. -/
def normalizeEntries (now : String) (ota_name : String) (hotel_name : String)
    (check_in : String) (check_out : String) (entries : List RawRateEntry)
    (raw_data : Option RawPayload) : ScrapedRecord RateEntry RawPayload :=
  format_scraped_data now ota_name hotel_name check_in check_out
    (buildRates entries) raw_data

/-- The state of `RateLimiter` from `scrapers/common/rate_limiter.py`:
a minimum delay and the last request time, both in seconds. -/
structure RateLimiter where
  min_delay : ℚ
  last_request_time : ℚ
deriving DecidableEq, Repr

/-- `RateLimiter.__init__`: stores `min_delay` and sets
`last_request_time = 0`. -/
def RateLimiter.init (min_delay : ℚ) : RateLimiter :=
  { min_delay := min_delay, last_request_time := 0 }

/-- The sleep performed by `RateLimiter.wait` when entered at clock
reading `t1` (the source's `current_time`): `min_delay - time_since_last`
if `time_since_last < min_delay`, otherwise no sleep. -/
def sleepNeeded (rl : RateLimiter) (t1 : ℚ) : ℚ :=
  if t1 - rl.last_request_time < rl.min_delay
  then rl.min_delay - (t1 - rl.last_request_time)
  else 0

/-- `RateLimiter.wait`: after any sleeping completes, the second
`time.time()` reading `t2` is stored as `last_request_time` (the update
happens after the wait, not before). -/
def RateLimiter.wait (rl : RateLimiter) (_t1 t2 : ℚ) : RateLimiter :=
  { min_delay := rl.min_delay, last_request_time := t2 }

/-- Admissibility of one `wait` call's pair of `time.time()` readings:
the clock is monotone (`t1` is not before the stored last request
time), and the reading `t2` taken after `time.sleep` accounts for at
least the requested sleep. The source marks `t1` at entry and `t2`
after the conditional sleep. -/
def stepOk (rl : RateLimiter) (t1 t2 : ℚ) : Bool :=
  rl.last_request_time ≤ t1 && t1 + sleepNeeded rl t1 ≤ t2

/-- Admissibility of a whole trace of `wait` calls, threading the
limiter state. -/
def traceOk : RateLimiter → List (ℚ × ℚ) → Bool
  | _, [] => true
  | rl, (t1, t2) :: rest => stepOk rl t1 t2 && traceOk (rl.wait t1 t2) rest

/-- Run a trace of `wait` calls from a limiter state. -/
def runWait : RateLimiter → List (ℚ × ℚ) → RateLimiter
  | rl, [] => rl
  | rl, (t1, t2) :: rest => runWait (rl.wait t1 t2) rest

/-- The second clock reading of the last call of a trace: the effective
start time of the final gated operation (0 for the empty trace). -/
def lastSnd : List (ℚ × ℚ) → ℚ
  | [] => 0
  | [ p ] => p.2
  | _ :: q :: rest => lastSnd (q :: rest)

/-- The one unrecoverable signal the external browser-session dependency
may raise through the utility wrappers: the session is unusable. -/
inductive DriverError where
  | sessionError
deriving DecidableEq, Repr

/-- The behaviour of a `WebDriverWait(...).until(...)` call, as supplied
by the external driver: it returns an element, raises
`TimeoutException`, or raises an unrecoverable driver error. -/
inductive UntilResult (ε : Type) where
  | found (e : ε)
  | timedOut
  | raised (x : DriverError)
deriving DecidableEq, Repr

/-- The behaviour of a `driver.find_element` call: it returns an
element, raises `NoSuchElementException`, or raises an unrecoverable
driver error. -/
inductive FindResult (ε : Type) where
  | found (e : ε)
  | noSuchElement
  | raised (x : DriverError)
deriving DecidableEq, Repr

/-- The behaviour of a `driver.find_elements` call: it returns a list of
elements, raises `NoSuchElementException`, or raises an unrecoverable
driver error. -/
inductive FindManyResult (ε : Type) where
  | found (es : List ε)
  | noSuchElement
  | raised (x : DriverError)
deriving DecidableEq, Repr

/-- `wait_for_element` from `scrapers/common/selenium_utils.py`: the
`until` call's outcome with `TimeoutException` caught and turned into a
`None` return; any other exception propagates. -/
def wait_for_element {ε : Type} (r : UntilResult ε) : Except DriverError (Option ε) :=
  match r with
  | .found e => .ok (some e)
  | .timedOut => .ok none
  | .raised x => .error x

/-- `wait_for_clickable` from `scrapers/common/selenium_utils.py`: same
shape as `wait_for_element`, with the clickable condition's outcome. -/
def wait_for_clickable {ε : Type} (r : UntilResult ε) : Except DriverError (Option ε) :=
  match r with
  | .found e => .ok (some e)
  | .timedOut => .ok none
  | .raised x => .error x

/-- `safe_find_element` from `scrapers/common/selenium_utils.py`:
`find_element` with `NoSuchElementException` caught and turned into a
`None` return; any other exception propagates. -/
def safe_find_element {ε : Type} (r : FindResult ε) : Except DriverError (Option ε) :=
  match r with
  | .found e => .ok (some e)
  | .noSuchElement => .ok none
  | .raised x => .error x

/-- `safe_find_elements` from `scrapers/common/selenium_utils.py`:
`find_elements` with `NoSuchElementException` caught and turned into an
empty-list return; any other exception propagates. -/
def safe_find_elements {ε : Type} (r : FindManyResult ε) : Except DriverError (List ε) :=
  match r with
  | .found es => .ok es
  | .noSuchElement => .ok []
  | .raised x => .error x

/-- The failure taxonomy a `scrape_rates` call may signal. -/
inductive ScrapeFailure where
  | invalidQuery
  | sessionError
  | siteLayoutChanged
  | timedOut
  | notImplemented
deriving DecidableEq, Repr

/-- A browser-session or network interaction an adapter could perform;
recorded as a trace so that "no interaction occurred" is expressible. -/
inductive BrowserAction where
  | sessionCreate
  | navigate (url : String)
deriving DecidableEq, Repr

/-- The result type of a scrape: either a failure signal or a record,
paired with the trace of browser actions performed. -/
abbrev ScrapeResult :=
  Except ScrapeFailure (ScrapedRecord RateEntry RawPayload) × List BrowserAction

/-- `BookingScraper.scrape_rates` from `scrapers/booking/scraper.py`:
the body immediately raises `NotImplementedError`, performing no
validation and no browser action. -/
def BookingScraper.scrape_rates (_hotel_name _check_in _check_out : String)
    (_adults : Int) : ScrapeResult :=
  (.error .notImplemented, [])

/-- `ExpediaScraper.scrape_rates` from `scrapers/expedia/scraper.py`:
the body immediately raises `NotImplementedError`, performing no
validation and no browser action. -/
def ExpediaScraper.scrape_rates (_hotel_name _check_in _check_out : String)
    (_adults : Int) : ScrapeResult :=
  (.error .notImplemented, [])

/-- `AgodaScraper.scrape_rates` from `scrapers/agoda/scraper.py`:
the body immediately raises `NotImplementedError`, performing no
validation and no browser action. -/
def AgodaScraper.scrape_rates (_hotel_name _check_in _check_out : String)
    (_adults : Int) : ScrapeResult :=
  (.error .notImplemented, [])

/-- `TripScraper.scrape_rates` from `scrapers/trip/scraper.py`:
the body immediately raises `NotImplementedError`, performing no
validation and no browser action. -/
def TripScraper.scrape_rates (_hotel_name _check_in _check_out : String)
    (_adults : Int) : ScrapeResult :=
  (.error .notImplemented, [])

lemma stepOk_le (rl : RateLimiter) (t1 t2 : ℚ) (h : stepOk rl t1 t2 = true) :
    rl.last_request_time + rl.min_delay ≤ t2 := by
  simp only [stepOk, Bool.and_eq_true, decide_eq_true_eq] at h
  obtain ⟨h1, h2⟩ := h
  by_cases hc : t1 - rl.last_request_time < rl.min_delay
  · rw [sleepNeeded, if_pos hc] at h2
    linarith
  · rw [sleepNeeded, if_neg hc] at h2
    push_neg at hc
    linarith

lemma lastSnd_span : ∀ (rest : List (ℚ × ℚ)) (rl : RateLimiter) (t1 t2 : ℚ),
    traceOk rl ((t1, t2) :: rest) = true →
    t2 + rest.length * rl.min_delay ≤ lastSnd ((t1, t2) :: rest) := by
  intro rest
  induction rest with
  | nil =>
    intro rl t1 t2 _
    simp [lastSnd]
  | cons p rest' ih =>
    intro rl t1 t2 h
    obtain ⟨s1, s2⟩ := p
    simp only [traceOk, Bool.and_eq_true] at h
    have hs2 : (rl.wait t1 t2).last_request_time + (rl.wait t1 t2).min_delay ≤ s2 :=
      stepOk_le _ _ _ h.2.1
    have hih := ih (rl.wait t1 t2) s1 s2 (by
      simp only [traceOk, Bool.and_eq_true]
      exact ⟨h.2.1, h.2.2⟩)
    simp only [RateLimiter.wait] at hs2 hih
    have hlast : lastSnd ((t1, t2) :: (s1, s2) :: rest') = lastSnd ((s1, s2) :: rest') := rfl
    rw [hlast]
    simp only [List.length_cons] at hih ⊢
    push_cast at hih ⊢
    linarith

lemma runWait_last : ∀ (rest : List (ℚ × ℚ)) (rl : RateLimiter) (t1 t2 : ℚ),
    (runWait rl ((t1, t2) :: rest)).last_request_time = lastSnd ((t1, t2) :: rest) := by
  intro rest
  induction rest with
  | nil =>
    intro rl t1 t2
    simp [runWait, lastSnd, RateLimiter.wait]
  | cons p rest' ih =>
    intro rl t1 t2
    obtain ⟨s1, s2⟩ := p
    simpa [runWait, lastSnd] using ih (rl.wait t1 t2) s1 s2

/-- Claim C3: for a rate limiter with `min_delay = d ≥ 0` and any
admissible sequence of `N = rest.length + 1` consecutive `wait`-gated
calls (each call's post-sleep clock reading accounts for the requested
sleep, and the clock is monotone), the span from the first call's
effective start time to the last call's effective start time is at
least `(N - 1) * d`; moreover `last_request_time` ends up equal to the
final post-blocking clock reading, reflecting that `wait` updates it
after any blocking completes. -/
theorem rateLimiter_span (d : ℚ) (_hd : 0 ≤ d) (t1 t2 : ℚ) (rest : List (ℚ × ℚ))
    (h : traceOk (RateLimiter.init d) ((t1, t2) :: rest) = true) :
    t2 + rest.length * d ≤ lastSnd ((t1, t2) :: rest) ∧
      (runWait (RateLimiter.init d) ((t1, t2) :: rest)).last_request_time =
        lastSnd ((t1, t2) :: rest) := by
  refine ⟨?_, runWait_last rest _ t1 t2⟩
  have hmain := lastSnd_span rest (RateLimiter.init d) t1 t2 h
  simpa [RateLimiter.init] using hmain

/-- Witness for claim C3: a concrete admissible three-call trace with
`min_delay = 1`, whose effective start times 1, 2, 3 span 2 ≥ 2 * 1. -/
theorem rateLimiter_span_witness :
    ((0 : ℚ) ≤ 1) ∧
    (traceOk (RateLimiter.init 1) [ ((0 : ℚ), (1 : ℚ)), (1, 2), (2, 3) ] = true) ∧
    ((1 : ℚ) + ([ ((1 : ℚ), (2 : ℚ)), (2, 3) ].length : ℚ) * 1 ≤
        lastSnd [ ((0 : ℚ), (1 : ℚ)), (1, 2), (2, 3) ] ∧
      (runWait (RateLimiter.init 1)
            [ ((0 : ℚ), (1 : ℚ)), (1, 2), (2, 3) ]).last_request_time =
        lastSnd [ ((0 : ℚ), (1 : ℚ)), (1, 2), (2, 3) ]) := by
  have htrace : traceOk (RateLimiter.init 1) [ ((0 : ℚ), (1 : ℚ)), (1, 2), (2, 3) ] = true := by
    norm_num [traceOk, stepOk, sleepNeeded, RateLimiter.wait, RateLimiter.init]
  exact ⟨by norm_num, htrace, rateLimiter_span 1 (by norm_num) 0 1 [ (1, 2), (2, 3) ] htrace⟩

/-- Claim C10: a freshly constructed `RateLimiter` has
`last_request_time = 0` (the epoch sentinel), and for every `min_delay`
not exceeding the current time-since-epoch `t`, the first `wait` call
computes a zero sleep, returning immediately. -/
theorem rateLimiter_init_first_wait (d t : ℚ) (h : d ≤ t) :
    (RateLimiter.init d).last_request_time = 0 ∧
      sleepNeeded (RateLimiter.init d) t = 0 := by
  refine ⟨rfl, ?_⟩
  have hc : ¬ (t - (RateLimiter.init d).last_request_time < (RateLimiter.init d).min_delay) := by
    simp only [RateLimiter.init, sub_zero, not_lt]
    exact h
  simp [sleepNeeded, hc]

/-- Witness for claim C10: `min_delay = 1`, current time 2. -/
theorem rateLimiter_init_first_wait_witness :
    ((1 : ℚ) ≤ 2) ∧
    ((RateLimiter.init 1).last_request_time = 0 ∧
      sleepNeeded (RateLimiter.init 1) 2 = 0) :=
  ⟨by norm_num, rateLimiter_init_first_wait 1 2 (by norm_num)⟩

/-- Claim C1 (amended): `format_scraped_data` performs no whitelist
validation at all: for every `ota_name` outside `WHITELIST_OTAS`
(including the empty string and case-mismatched variants), it returns a
record with `ota_name` copied verbatim instead of failing with
`UnknownOta` — no failure path exists in its body. -/
theorem format_scraped_data_ignores_whitelist (now ota hotel check_in check_out : String)
    (rates : List RateEntry) (raw : Option RawPayload) (_h : ota ∉ WHITELIST_OTAS) :
    format_scraped_data now ota hotel check_in check_out rates raw =
      { ota_name := ota, hotel_name := hotel, check_in_date := check_in,
        check_out_date := check_out, scraped_at := now, rates := rates,
        raw_data := raw } :=
  rfl

/-- Witness for claim C1 (amended): the case-mismatched name
`"Booking"` is not whitelisted, yet a record is returned verbatim. -/
theorem format_scraped_data_ignores_whitelist_witness :
    ("Booking" ∉ WHITELIST_OTAS) ∧
    format_scraped_data "2025-06-01T12:00:00" "Booking" "Grand Hotel" "2025-06-01"
        "2025-06-03" ([] : List RateEntry) (none : Option RawPayload) =
      { ota_name := "Booking", hotel_name := "Grand Hotel",
        check_in_date := "2025-06-01", check_out_date := "2025-06-03",
        scraped_at := "2025-06-01T12:00:00", rates := [], raw_data := none } :=
  ⟨by decide,
    format_scraped_data_ignores_whitelist "2025-06-01T12:00:00" "Booking" "Grand Hotel"
      "2025-06-01" "2025-06-03" [] none (by decide)⟩

/-- Counterexample to claim C1 as stated: the empty string is not in the
whitelist, yet normalizing a record for it returns a record (with
`ota_name = ""`) rather than failing with `UnknownOta`. -/
theorem format_scraped_data_empty_ota_counterexample :
    ("" ∉ WHITELIST_OTAS) ∧
    format_scraped_data "2025-06-01T12:00:00" "" "Grand Hotel" "2025-06-01" "2025-06-03"
        ([] : List RateEntry) (none : Option RawPayload) =
      { ota_name := "", hotel_name := "Grand Hotel", check_in_date := "2025-06-01",
        check_out_date := "2025-06-03", scraped_at := "2025-06-01T12:00:00",
        rates := [], raw_data := none } :=
  ⟨by decide, rfl⟩

/-- Claim C2 (amended): every scraper variant's `scrape_rates` fails
with `NotImplemented` for every query — valid or invalid — before any
browser-session or network interaction occurs (its action trace is
empty); it never performs query validation and never fails with
`InvalidQuery`. -/
theorem scrape_rates_always_notImplemented (hotel check_in check_out : String)
    (adults : Int) :
    BookingScraper.scrape_rates hotel check_in check_out adults =
        (Except.error ScrapeFailure.notImplemented, []) ∧
      ExpediaScraper.scrape_rates hotel check_in check_out adults =
        (Except.error ScrapeFailure.notImplemented, []) ∧
      AgodaScraper.scrape_rates hotel check_in check_out adults =
        (Except.error ScrapeFailure.notImplemented, []) ∧
      TripScraper.scrape_rates hotel check_in check_out adults =
        (Except.error ScrapeFailure.notImplemented, []) :=
  ⟨rfl, rfl, rfl, rfl⟩

/-- Counterexample to claim C2 as stated: on the spec's own scenario
(`check_in = "2025-06-05"`, `check_out = "2025-06-01"`, an invalid
ordering), `BookingScraper.scrape_rates` fails with `NotImplemented`,
which is distinct from `InvalidQuery`. -/
theorem scrape_rates_invalid_query_counterexample :
    BookingScraper.scrape_rates "Grand Hotel" "2025-06-05" "2025-06-01" 2 =
        (Except.error ScrapeFailure.notImplemented, []) ∧
      ScrapeFailure.notImplemented ≠ ScrapeFailure.invalidQuery :=
  ⟨rfl, by decide⟩

/-- Claim C6: the bounded-wait operations never raise for expected
conditions: `wait_for_element` and `wait_for_clickable` return `None`
(not an error) on timeout, `safe_find_element` returns `None` and
`safe_find_elements` returns the empty list when nothing matches; by
the exhaustive case enumeration, an error propagates only when the
underlying driver call itself raised an unrecoverable session error. -/
theorem selenium_utils_expected_conditions (ε : Type) :
    (∀ e : ε, wait_for_element (UntilResult.found e) = Except.ok (some e)) ∧
    wait_for_element (UntilResult.timedOut : UntilResult ε) = Except.ok none ∧
    (∀ x, wait_for_element (UntilResult.raised x : UntilResult ε) = Except.error x) ∧
    (∀ e : ε, wait_for_clickable (UntilResult.found e) = Except.ok (some e)) ∧
    wait_for_clickable (UntilResult.timedOut : UntilResult ε) = Except.ok none ∧
    (∀ x, wait_for_clickable (UntilResult.raised x : UntilResult ε) = Except.error x) ∧
    (∀ e : ε, safe_find_element (FindResult.found e) = Except.ok (some e)) ∧
    safe_find_element (FindResult.noSuchElement : FindResult ε) = Except.ok none ∧
    (∀ x, safe_find_element (FindResult.raised x : FindResult ε) = Except.error x) ∧
    (∀ es : List ε, safe_find_elements (FindManyResult.found es) = Except.ok es) ∧
    safe_find_elements (FindManyResult.noSuchElement : FindManyResult ε) =
      Except.ok ([] : List ε) ∧
    (∀ x, safe_find_elements (FindManyResult.raised x : FindManyResult ε) = Except.error x) :=
  ⟨fun _ => rfl, rfl, fun _ => rfl, fun _ => rfl, rfl, fun _ => rfl,
    fun _ => rfl, rfl, fun _ => rfl, fun _ => rfl, rfl, fun _ => rfl⟩

/-- Claim C7: normalization is deterministic up to the timestamp — two
`format_scraped_data` calls with identical arguments but different
clock readings produce records identical in every field except
`scraped_at`, which carries each call's own clock reading. -/
theorem format_scraped_data_deterministic (ρ δ : Type)
    (t1 t2 ota hotel check_in check_out : String) (rates : List ρ) (raw : Option δ) :
    (format_scraped_data t1 ota hotel check_in check_out rates raw).ota_name =
        (format_scraped_data t2 ota hotel check_in check_out rates raw).ota_name ∧
      (format_scraped_data t1 ota hotel check_in check_out rates raw).hotel_name =
        (format_scraped_data t2 ota hotel check_in check_out rates raw).hotel_name ∧
      (format_scraped_data t1 ota hotel check_in check_out rates raw).check_in_date =
        (format_scraped_data t2 ota hotel check_in check_out rates raw).check_in_date ∧
      (format_scraped_data t1 ota hotel check_in check_out rates raw).check_out_date =
        (format_scraped_data t2 ota hotel check_in check_out rates raw).check_out_date ∧
      (format_scraped_data t1 ota hotel check_in check_out rates raw).rates =
        (format_scraped_data t2 ota hotel check_in check_out rates raw).rates ∧
      (format_scraped_data t1 ota hotel check_in check_out rates raw).raw_data =
        (format_scraped_data t2 ota hotel check_in check_out rates raw).raw_data ∧
      (format_scraped_data t1 ota hotel check_in check_out rates raw).scraped_at = t1 ∧
      (format_scraped_data t2 ota hotel check_in check_out rates raw).scraped_at = t2 :=
  ⟨rfl, rfl, rfl, rfl, rfl, rfl, rfl, rfl⟩

/-- Claim C8: the normalized record's `hotel_name`, `check_in_date` and
`check_out_date` are exactly the query's `hotel_name`, `check_in` and
`check_out` arguments, copied verbatim for every input, independent of
the raw data. -/
theorem format_scraped_data_copies_query (ρ δ : Type)
    (now ota hotel check_in check_out : String) (rates : List ρ) (raw : Option δ) :
    (format_scraped_data now ota hotel check_in check_out rates raw).hotel_name = hotel ∧
      (format_scraped_data now ota hotel check_in check_out rates raw).check_in_date =
        check_in ∧
      (format_scraped_data now ota hotel check_in check_out rates raw).check_out_date =
        check_out :=
  ⟨rfl, rfl, rfl⟩

lemma np_dollar_1234_56 : normalize_price "$1,234.56" = some (PyFloat.finite (123456 / 100)) := by
  have h : normalize_price_core "$1,234.56" = some (PyLit.finite false 123456 2) := by decide
  rw [normalize_price, h]
  norm_num [PyLit.toPyFloat]

lemma np_1234_56 : normalize_price "1234.56" = some (PyFloat.finite (123456 / 100)) := by
  have h : normalize_price_core "1234.56" = some (PyLit.finite false 123456 2) := by decide
  rw [normalize_price, h]
  norm_num [PyLit.toPyFloat]

lemma np_42 : normalize_price "  42 " = some (PyFloat.finite 42) := by
  have h : normalize_price_core "  42 " = some (PyLit.finite false 42 0) := by decide
  rw [normalize_price, h]
  norm_num [PyLit.toPyFloat]

lemma np_empty : normalize_price "" = none := by
  have h : normalize_price_core "" = none := by decide
  rw [normalize_price, h]
  rfl

lemma np_na : normalize_price "N/A" = none := by
  have h : normalize_price_core "N/A" = none := by decide
  rw [normalize_price, h]
  rfl

lemma np_dashes : normalize_price "--" = none := by
  have h : normalize_price_core "--" = none := by decide
  rw [normalize_price, h]
  rfl

lemma np_misplaced_comma : normalize_price "12,34" = some (PyFloat.finite 1234) := by
  have h : normalize_price_core "12,34" = some (PyLit.finite false 1234 0) := by decide
  rw [normalize_price, h]
  norm_num [PyLit.toPyFloat]

lemma np_double_dollar : normalize_price "$$5" = some (PyFloat.finite 5) := by
  have h : normalize_price_core "$$5" = some (PyLit.finite false 5 0) := by decide
  rw [normalize_price, h]
  norm_num [PyLit.toPyFloat]

lemma np_scientific : normalize_price "1e3" = some (PyFloat.finite 1000) := by
  have h : normalize_price_core "1e3" = some (PyLit.finite false 1000 0) := by decide
  rw [normalize_price, h]
  norm_num [PyLit.toPyFloat]

lemma np_100 : normalize_price "$100" = some (PyFloat.finite 100) := by
  have h : normalize_price_core "$100" = some (PyLit.finite false 100 0) := by decide
  rw [normalize_price, h]
  norm_num [PyLit.toPyFloat]

lemma np_bad : normalize_price "bad" = none := by
  have h : normalize_price_core "bad" = none := by decide
  rw [normalize_price, h]
  rfl

lemma np_50 : normalize_price "$50" = some (PyFloat.finite 50) := by
  have h : normalize_price_core "$50" = some (PyLit.finite false 50 0) := by decide
  rw [normalize_price, h]
  norm_num [PyLit.toPyFloat]

lemma pyStripList_sublist (cs : List Char) : List.Sublist (pyStripList cs) cs := by
  have h1 : List.Sublist ((cs.dropWhile pyIsSpace).reverse.dropWhile pyIsSpace)
      (cs.dropWhile pyIsSpace).reverse := List.dropWhile_sublist _
  have h2 := h1.reverse
  rw [List.reverse_reverse] at h2
  exact h2.trans (List.dropWhile_sublist _)

lemma count_cleanPrice_dollar (s : String) : (cleanPrice s).count '$' = 0 := by
  rw [List.count_eq_zero]
  intro hmem
  have h1 : '$' ∈ removeChar ',' (removeChar '$' s.toList) :=
    (pyStripList_sublist _).subset hmem
  have h2 : '$' ∈ removeChar '$' s.toList := by
    rw [removeChar] at h1
    exact (List.mem_filter.mp h1).1
  rw [removeChar] at h2
  have h3 := (List.mem_filter.mp h2).2
  simp at h3

lemma count_cleanPrice_comma (s : String) : (cleanPrice s).count ',' = 0 := by
  rw [List.count_eq_zero]
  intro hmem
  have h1 : ',' ∈ removeChar ',' (removeChar '$' s.toList) :=
    (pyStripList_sublist _).subset hmem
  rw [removeChar] at h1
  have h2 := (List.mem_filter.mp h1).2
  simp at h2

/-- Claim C4: `normalize_price` maps the well-formed price strings
`"$1,234.56"`, `"1234.56"`, `"  42 "` to 1234.56, 1234.56 and 42.0
respectively, maps each malformed input `""`, `"N/A"`, `"--"` to null,
and for every string input it returns a value or null — the embedding
is a total function, mirroring that the source catches `ValueError` and
never raises. -/
theorem normalize_price_spec_values :
    normalize_price "$1,234.56" = some (PyFloat.finite (123456 / 100)) ∧
      normalize_price "1234.56" = some (PyFloat.finite (123456 / 100)) ∧
      normalize_price "  42 " = some (PyFloat.finite 42) ∧
      normalize_price "" = none ∧
      normalize_price "N/A" = none ∧
      normalize_price "--" = none ∧
      (∀ s : String, normalize_price s = none ∨ ∃ v : PyFloat, normalize_price s = some v) := by
  refine ⟨np_dollar_1234_56, np_1234_56, np_42, np_empty, np_na, np_dashes, fun s => ?_⟩
  cases h : normalize_price s with
  | none => exact Or.inl rfl
  | some v => exact Or.inr ⟨v, rfl⟩

/-- Claim C9: `normalize_price` deletes every `$` and every `,`
regardless of position before parsing (the cleaned string contains
neither character, for every input), so inputs that are not well-formed
prices — `"12,34"` with a misplaced thousands separator, `"$$5"` with a
doubled currency sign, and `"1e3"` in scientific notation — yield the
non-null numbers 1234.0, 5.0 and 1000.0 rather than null. -/
theorem normalize_price_overpermissive :
    normalize_price "12,34" = some (PyFloat.finite 1234) ∧
      normalize_price "$$5" = some (PyFloat.finite 5) ∧
      normalize_price "1e3" = some (PyFloat.finite 1000) ∧
      (∀ s : String, (cleanPrice s).count '$' = 0 ∧ (cleanPrice s).count ',' = 0) :=
  ⟨np_misplaced_comma, np_double_dollar, np_scientific,
    fun s => ⟨count_cleanPrice_dollar s, count_cleanPrice_comma s⟩⟩

/-- Claim C5: normalizing the raw entries with prices `"$100"`,
`"bad"`, `"$50"` (parsed by `normalize_price`, assembled by
`format_scraped_data`) yields a `rates` sequence of length 3, in input
order, with amounts 100.0, null, 50.0 — the unparseable `"bad"` becomes
a null amount, not a dropped entry. -/
theorem normalizeEntries_order_preserved (now ota hotel check_in check_out : String)
    (raw : Option RawPayload) :
    (normalizeEntries now ota hotel check_in check_out
        [ ⟨"$100"⟩, ⟨"bad"⟩, ⟨"$50"⟩ ] raw).rates.length = 3 ∧
      (normalizeEntries now ota hotel check_in check_out
          [ ⟨"$100"⟩, ⟨"bad"⟩, ⟨"$50"⟩ ] raw).rates =
        [ ⟨some (PyFloat.finite 100), "$100"⟩, ⟨none, "bad"⟩,
          ⟨some (PyFloat.finite 50), "$50"⟩ ] := by
  constructor
  · rfl
  · show buildRates [ ⟨"$100"⟩, ⟨"bad"⟩, ⟨"$50"⟩ ] = _
    simp [buildRates, np_100, np_bad, np_50]
